import Mathlib

/-!
# Image gallery controller (`src/src/script.js`)

A shallow embedding of the gallery controller: the module variables
(`currentPage`, `currentImageIds`, `isFetching`), the part of the page the
handlers read and write (the children of `#gallery`, the status line, the
buttons, the loader) and every handler of the script as a function on that state.

Modelling conventions.

* `#gallery` initially has no element child, so its children are exactly the
  cards inserted by `renderImages`; `gallery.children` and
  `gallery.querySelectorAll('.image-card')` are then the same list.
* A card keeps what the handlers can read back from the page: the `data-id`
  attribute (always text), the author text and the liked mark of its button.
  The text of an id is taken to survive the HTML attribute unchanged (true for
  text without quote, ampersand or carriage return, such as decimal ids).
* An id is a JSON string or number, as the data model has it; the other fields of a
  record are arbitrary JSON values, known by what a template literal makes of them:
  a text, or a `TypeError` (an object whose `toString` is not callable).
* A JSON number id is an integer (its text in a template literal is then its
  decimal form); `currentPage` is a natural number. The known-id set is a `Finset`:
  the script only tests membership, adds, deletes and clears, and a JavaScript `Set`
  keeps the string `"1"` and the number `1` apart, as `Id.str` and `Id.num` are.
* The network is recorded in two ghost fields: `requests` (the pages passed to
  `fetch(url)`, in order) and `responses` (how many of them have settled); they
  have no effect on the rest of the state.
* `fetchImages` is `async`. The function `fetchImages` below runs one call to its
  end with the response of the source; `fetchStart` and `fetchResume` are the two
  halves around the network wait, used by `step` to interleave other handlers.
* The bootstrap function of the script registers the click handlers and calls
  `fetchImages(currentPage)` once; that call is the event `loadMore` in `step`.
-/

namespace Gallery

/-- An item identifier as decoded from the JSON body: a string or a number. -/
inductive Id
  | str (s : String)
  | num (n : Int)
  deriving DecidableEq, Repr

/-- The text of an identifier inside a template literal. -/
def Id.text : Id → String
  | .str s => s
  | .num n => toString n

/-- A JSON value of a record field, as a template literal sees it: the text it is
converted to, or the message of the `TypeError` the conversion throws. -/
inductive Value
  | text (s : String)
  | noText (message : String)
  deriving DecidableEq, Repr

/-- The conversion of a field inside a template literal. -/
def Value.toText : Value → Except String String
  | .text s => .ok s
  | .noText message => .error message

/-- An item record of the listing source. -/
structure Image where
  id : Id
  author : Value
  url : Value
  deriving DecidableEq, Repr

/-- A rendered card, as the handlers see it in the page. -/
structure Card where
  dataId : String
  imgSrc : String
  alt : String
  author : String
  href : String
  liked : Bool
  deriving DecidableEq, Repr

/-- The outcome of one request to the listing source: `fetch` rejects (`netFail`),
the response is not OK (`notOk`), the body does not decode to an array of records, so
that `response.json()` or `data.filter` throws (`badBody`), or the body decodes to
the items `data` (`ok`). The string of `netFail` and `badBody` is `error.message`.
An `ok` response can still make the `try` block throw, inside `renderImages`. -/
inductive Response
  | netFail (message : String)
  | notOk (status : Nat) (statusText : String)
  | badBody (message : String)
  | ok (data : List Image)
  deriving DecidableEq, Repr

/-- A listing source: the response to a request for a page. -/
abbrev Source := Nat → Response

/-- The module variables and the part of the page the script touches. -/
structure State where
  currentPage : Nat
  currentImageIds : Finset Id
  isFetching : Bool
  gallery : List Card
  statusText : String
  statusError : Bool
  loadMoreDisabled : Bool
  removeLastDisabled : Bool
  reverseDisabled : Bool
  emptyStateShown : Bool
  loaderShown : Bool
  requests : List Nat
  responses : Nat
  deriving DecidableEq

/-- The result of a block of statements that may throw: it ran to its end in the
state `s`, or it threw an error with the given message when the state was `s`. -/
inductive Outcome
  | done (s : State)
  | thrown (message : String) (s : State)
  deriving DecidableEq

/-- The state a block leaves behind, thrown or not. -/
def Outcome.state : Outcome → State
  | .done s => s
  | .thrown _ s => s

def IMAGES_PER_PAGE : Nat := 4

/-- The address requested by `fetchImages(page)`; in `requests` a request is
recorded by its page. -/
def requestUrl (page : Nat) : String :=
  "https://picsum.photos/v2/list?page=" ++ toString page ++ "&limit=" ++ toString IMAGES_PER_PAGE

/-- The state when the script has been loaded and no handler has run: cursor at 1,
no known id, no fetch in flight, no card. -/
def initialState : State :=
  { currentPage := 1
    currentImageIds := ∅
    isFetching := false
    gallery := []
    statusText := ""
    statusError := false
    loadMoreDisabled := false
    removeLastDisabled := false
    reverseDisabled := false
    emptyStateShown := false
    loaderShown := false
    requests := []
    responses := 0 }

def updateStatus (message : String) (isError : Bool) (s : State) : State :=
  { s with statusText := message, statusError := isError }

def toggleLoader (shown : Bool) (s : State) : State :=
  { s with loaderShown := shown }

def updateGalleryState (s : State) : State :=
  let cardCount := s.gallery.length
  let s := { s with emptyStateShown := decide (cardCount = 0) }
  let hasImages := decide (cardCount > 0)
  let s := { s with removeLastDisabled := !hasImages }
  let s := { s with reverseDisabled := decide (cardCount < 2) }
  if cardCount > 0 then
    if !s.isFetching then
      updateStatus ("Загальна кількість картинок: " ++ toString cardCount) false s
    else s
  else
    updateStatus "Галерея очікує на завантаження картинок." false s

/-- Toggle the liked mark of the `i`-th card (the card whose button was clicked). -/
def toggleLiked : List Card → Nat → List Card
  | [], _ => []
  | c :: cs, 0 => { c with liked := !c.liked } :: cs
  | c :: cs, i + 1 => c :: toggleLiked cs i

/-- The click handler of the like button of the `i`-th card; without such a card
no click can happen. -/
def handleLikeClick (i : Nat) (s : State) : State :=
  match s.gallery.get? i with
  | none => s
  | some card =>
    let s := { s with gallery := toggleLiked s.gallery i }
    let author := card.author
    let isLiked := !card.liked
    updateStatus
      (if isLiked then "❤️ Сподобалось фото від " ++ author ++ "!" else "💔 Лайк скасовано.")
      false s

/-- The card markup of an item; the template literal converts `image.author`
before `image.url`, and throws when a field has no text. -/
def createImageCard (image : Image) : Except String Card :=
  let imageUrl := "https://picsum.photos/id/" ++ image.id.text ++ "/400/300"
  match image.author.toText with
  | .error message => .error message
  | .ok author =>
    match image.url.toText with
    | .error message => .error message
    | .ok url =>
      .ok { dataId := image.id.text
            imgSrc := imageUrl
            alt := "Зображення від " ++ author
            author := author
            href := url
            liked := false }

/-- The `forEach` of `renderImages`: the accumulator is the known-id set, the
cards built so far (`htmlContent`) and `addedCount`. When `createImageCard` throws,
the loop stops; the ids added so far stay in the set (a module variable), the
cards built so far are lost with the local `htmlContent`. -/
def renderLoop : List Image → Finset Id × List Card × Nat →
    Except (String × Finset Id) (Finset Id × List Card × Nat)
  | [], acc => .ok acc
  | image :: rest, (ids, html, addedCount) =>
    if image.id ∉ ids then
      match createImageCard image with
      | .error message => .error (message, ids)
      | .ok card => renderLoop rest (insert image.id ids, html ++ [card], addedCount + 1)
    else
      renderLoop rest (ids, html, addedCount)

def renderImages (images : List Image) (s : State) : Outcome :=
  match renderLoop images (s.currentImageIds, [], 0) with
  | .error (message, ids) => .thrown message { s with currentImageIds := ids }
  | .ok (ids, htmlContent, addedCount) =>
    let s := { s with currentImageIds := ids }
    let s :=
      if addedCount > 0 then
        let s := { s with gallery := s.gallery ++ htmlContent }
        updateStatus ("Успішно додано " ++ toString addedCount ++ " нових картинок.") false s
      else s
    .done (updateGalleryState s)

/-- The part of `fetchImages` between the guard and the network wait. -/
def fetchStart (page : Nat) (s : State) : State :=
  let s := { s with isFetching := true }
  let s := { s with loadMoreDisabled := true }
  let s := toggleLoader true s
  { s with requests := s.requests ++ [page] }

/-- The `catch` block of `fetchImages`. -/
def fetchCatch (message : String) (s : State) : State :=
  updateStatus ("❌ Помилка завантаження: " ++ message) true s

/-- The `finally` block of `fetchImages`. -/
def fetchFinally (s : State) : State :=
  let s := { s with isFetching := false }
  let s := { s with loadMoreDisabled := false }
  let s := toggleLoader false s
  updateGalleryState s

/-- The `try` block of `fetchImages` after the network wait, on the response `r`;
`nested` is the call `fetchImages(currentPage)` of the all-duplicates branch
(`none` when the depth bound is hit). -/
def fetchTry (nested : State → Option State) (r : Response) (s : State) : Option Outcome :=
  match r with
  | .netFail message => some (.thrown message s)
  | .notOk status statusText =>
    some (.thrown ("Помилка HTTP: " ++ toString status ++ " " ++ statusText) s)
  | .badBody message => some (.thrown message s)
  | .ok data =>
    let uniqueImages := data.filter (fun img => decide (img.id ∉ s.currentImageIds))
    if uniqueImages.length > 0 then
      match renderImages uniqueImages s with
      | .thrown message s => some (.thrown message s)
      | .done s => some (.done { s with currentPage := s.currentPage + 1 })
    else if data.length > 0 then
      let s := updateStatus
        "Знайдені картинки вже є в галереї. Спробую завантажити наступну сторінку..." false s
      let s := { s with currentPage := s.currentPage + 1 }
      match nested s with
      | none => none
      | some s => some (.done s)
    else
      some (.done (updateStatus "Більше унікальних картинок для завантаження немає." true s))

/-- The part of `fetchImages` after the network wait: the `try` block on the
response `r`, the `catch` block when it threw, and the `finally` block. -/
def fetchResume (nested : State → Option State) (r : Response) (s : State) : Option State :=
  let s := { s with responses := s.responses + 1 }
  match fetchTry nested r s with
  | none => none
  | some (.done s) => some (fetchFinally s)
  | some (.thrown message s) => some (fetchFinally (fetchCatch message s))

/-- One call `fetchImages(page)` run to its end against the source `src`. The
first argument bounds the depth of nested calls; `none` means the bound was hit. -/
def fetchImages : Nat → Source → Nat → State → Option State
  | 0, _, _, _ => none
  | fuel + 1, src, page, s =>
    if s.isFetching then some s
    else
      fetchResume (fun s1 => fetchImages fuel src s1.currentPage s1) (src page)
        (fetchStart page s)

def handleLoadMore (fuel : Nat) (src : Source) (s : State) : Option State :=
  fetchImages fuel src s.currentPage s

def handleClearGallery (s : State) : State :=
  if s.gallery.length = 0 then
    updateStatus "Галерея вже порожня." false s
  else
    let s := { s with gallery := [] }
    let s := { s with currentImageIds := ∅ }
    let s := { s with currentPage := 1 }
    let s := updateStatus "✅ Галерея повністю очищена." false s
    updateGalleryState s

def handleRemoveLast (s : State) : State :=
  let cards := s.gallery
  match cards.getLast? with
  | some lastCard =>
    let lastId := lastCard.dataId
    let s := { s with gallery := cards.dropLast }
    let s := { s with currentImageIds := s.currentImageIds.erase (Id.str lastId) }
    let s := updateStatus "🗑️ Остання картинка видалена." false s
    updateGalleryState s
  | none => s

def handleReverseGallery (s : State) : State :=
  let cards := s.gallery
  if cards.length < 2 then
    updateStatus "Потрібно щонайменше 2 картинки для перевороту." false s
  else
    let cards := cards.reverse
    let s := { s with gallery := [] }
    let s := { s with gallery := s.gallery ++ cards }
    let s := updateStatus "🔄 Галерея перевернута." false s
    updateGalleryState s

/-- What can happen to the page: a call of `fetchImages` reaching the network wait
(the load-more click calls it with `currentPage`), the pending request settling,
and the clicks on the other controls. The script calls `renderImages` only from
`fetchImages`; `render` lets the invariants cover a call of it on its own. -/
inductive Event
  | call (page : Nat)
  | loadMore
  | respond (r : Response)
  | clear
  | removeLast
  | reverse
  | like (i : Nat)
  | render (images : List Image)
  deriving DecidableEq, Repr

/-- One event, handlers interleaved with the network wait of `fetchImages`. A
response can only arrive while a request is pending (`none` otherwise).
The nested call of the all-duplicates branch is run with depth bound 1. -/
def step (src : Source) : Event → State → Option State
  | .call page, s => if s.isFetching then some s else some (fetchStart page s)
  | .loadMore, s => if s.isFetching then some s else some (fetchStart s.currentPage s)
  | .respond r, s =>
    if s.isFetching then fetchResume (fun s1 => fetchImages 1 src s1.currentPage s1) r s
    else none
  | .clear, s => some (handleClearGallery s)
  | .removeLast, s => some (handleRemoveLast s)
  | .reverse, s => some (handleReverseGallery s)
  | .like i, s => some (handleLikeClick i s)
  | .render images, s => some (renderImages images s).state

/-- A sequence of events, in order. -/
def run (src : Source) : List Event → State → Option State
  | [], s => some s
  | e :: es, s => (step src e s).bind (run src es)

/-- The number of requests issued and not yet settled. -/
def outstanding (s : State) : Nat := s.requests.length - s.responses

/-- The aggregate status line written by `updateGalleryState` outside a fetch. -/
def aggregateStatus (cardCount : Nat) : String :=
  if cardCount > 0 then "Загальна кількість картинок: " ++ toString cardCount
  else "Галерея очікує на завантаження картинок."

/-- A response without item list: the request failed, the response is not OK or
the body does not decode to an array of records. On these the `try` block throws
before it reads any item; these are not the only responses on which it throws. -/
def Response.failed : Response → Bool
  | .ok _ => false
  | _ => true

/-- The message of the error thrown on a response, as built in `fetchImages`. -/
def Response.errorMessage : Response → String
  | .netFail message => message
  | .notOk status statusText => "Помилка HTTP: " ++ toString status ++ " " ++ statusText
  | .badBody message => message
  | .ok _ => ""

/-! ## Invariants -/

/-- The ghost counters agree with the in-flight flag. -/
def Synced (s : State) : Prop :=
  s.requests.length = s.responses + (if s.isFetching then 1 else 0)

/-- An identifier that is a JSON string. -/
def Id.isStr : Id → Bool
  | .str _ => true
  | .num _ => false

/-- The data-id attributes of the rendered cards, in display order. -/
def dataIds (s : State) : List String := s.gallery.map Card.dataId

/-- The cards carry pairwise different data-ids and the known ids are exactly the
data-ids of the cards, as strings. -/
def TextConsistent (s : State) : Prop :=
  (dataIds s).Nodup ∧ s.currentImageIds = ((dataIds s).map Id.str).toFinset

/-- A field that has a text. -/
def Value.isText : Value → Bool
  | .text _ => true
  | .noText _ => false

/-- An item with a string id and fields that have a text. -/
def Image.isPlain (img : Image) : Bool :=
  img.id.isStr && img.author.isText && img.url.isText

/-- An event all of whose items carry string ids and fields that have a text. -/
def Event.plainItems : Event → Bool
  | .respond (.ok data) => data.all Image.isPlain
  | .render images => images.all Image.isPlain
  | _ => true

/-- The invariant of the known-id set: the cards carry pairwise different data-ids,
every known id is the id of a card, every card carries a known id, and there are as
many known ids as cards. -/
def Deduplicated (s : State) : Prop :=
  (dataIds s).Nodup ∧
  (∀ id ∈ s.currentImageIds, id.text ∈ dataIds s) ∧
  (∀ t ∈ dataIds s, ∃ id ∈ s.currentImageIds, id.text = t) ∧
  s.currentImageIds.card = s.gallery.length

/-! ## Concrete inputs -/

/-- An item with a numeric id, as in the scenarios of the specification. -/
def item (n : Int) : Image := { id := .num n, author := .text "author", url := .text "url" }

/-- An item with a string id, as the listing endpoint of the script serves them. -/
def itemS (id : String) : Image := { id := .str id, author := .text "author", url := .text "url" }

/-- The source of the duplicate-page scenario: pages 1 and 2 hold ids 1 to 4,
page 3 holds id 5, every later page is empty. -/
def scenarioSource : Source := fun page =>
  if page = 1 then .ok [item 1, item 2, item 3, item 4]
  else if page = 2 then .ok [item 1, item 2, item 3, item 4]
  else if page = 3 then .ok [item 5]
  else .ok []

/-- A record whose author is a JSON object with a `toString` that is no function:
a template literal throws on it. -/
def brokenItem : Image :=
  { id := .str "2", author := .noText "Cannot convert object to primitive value",
    url := .text "url" }

/-- A source whose every page is an HTTP 200 body of two records, the second of
them `brokenItem`. -/
def brokenSource : Source := fun _ => .ok [itemS "1", brokenItem]

/-- A source whose every page holds the one well-formed record with id "1". -/
def healedSource : Source := fun _ => .ok [itemS "1"]

/-- A source that answers every request with HTTP 500. -/
def failingSource : Source := fun _ => .notOk 500 "Internal Server Error"

/-- A source whose first page is fine and whose other requests fail on the network. -/
def flakySource : Source := fun page =>
  if page = 1 then .ok [item 1, item 2, item 3, item 4] else .netFail "Failed to fetch"

/-- A source whose every page holds the two numeric ids 7 and 8. -/
def numericSource : Source := fun _ => .ok [item 7, item 8]

/-- A gallery of three cards: the initial load of a page of three items. -/
def threeCards : State :=
  (run scenarioSource [.loadMore, .respond (.ok [itemS "10", itemS "11", itemS "12"])]
    initialState).getD initialState

/-- The state after the initial load of page 1 of the scenario source: four
cards, cursor at 2. -/
def loadedState : State := (fetchImages 2 scenarioSource 1 initialState).getD initialState

/-! ## Frame lemmas -/

@[simp]
theorem updateStatus_currentPage (m e s) : (updateStatus m e s).currentPage = s.currentPage := rfl
@[simp]
theorem updateStatus_gallery (m e s) : (updateStatus m e s).gallery = s.gallery := rfl
@[simp]
theorem updateStatus_ids (m e s) : (updateStatus m e s).currentImageIds = s.currentImageIds := rfl
@[simp]
theorem updateStatus_isFetching (m e s) : (updateStatus m e s).isFetching = s.isFetching := rfl
@[simp]
theorem updateStatus_requests (m e s) : (updateStatus m e s).requests = s.requests := rfl
@[simp]
theorem updateStatus_responses (m e s) : (updateStatus m e s).responses = s.responses := rfl
@[simp]
theorem updateStatus_loadMoreDisabled (m e s) : (updateStatus m e s).loadMoreDisabled = s.loadMoreDisabled := rfl
@[simp]
theorem updateStatus_statusText (m e s) : (updateStatus m e s).statusText = m := rfl
@[simp]
theorem updateStatus_statusError (m e s) : (updateStatus m e s).statusError = e := rfl

theorem updateGalleryState_frame (s : State) :
    (updateGalleryState s).currentPage = s.currentPage ∧
    (updateGalleryState s).currentImageIds = s.currentImageIds ∧
    (updateGalleryState s).gallery = s.gallery ∧
    (updateGalleryState s).isFetching = s.isFetching ∧
    (updateGalleryState s).loadMoreDisabled = s.loadMoreDisabled ∧
    (updateGalleryState s).requests = s.requests ∧
    (updateGalleryState s).responses = s.responses := by
  unfold updateGalleryState
  simp only []
  split_ifs <;> simp

theorem updateGalleryState_status (s : State) (h : s.isFetching = false) :
    (updateGalleryState s).statusText = aggregateStatus s.gallery.length ∧
    (updateGalleryState s).statusError = false := by
  unfold updateGalleryState aggregateStatus
  simp only []
  split_ifs <;> simp_all


theorem renderImages_frame (images : List Image) (s : State) :
    (renderImages images s).state.currentPage = s.currentPage ∧
    (renderImages images s).state.isFetching = s.isFetching ∧
    (renderImages images s).state.loadMoreDisabled = s.loadMoreDisabled ∧
    (renderImages images s).state.requests = s.requests ∧
    (renderImages images s).state.responses = s.responses := by
  unfold renderImages
  split
  · exact ⟨rfl, rfl, rfl, rfl, rfl⟩
  · simp only [Outcome.state]
    split_ifs <;> simp [updateGalleryState_frame]

/-- When `renderImages` throws, no card has been inserted. -/
theorem renderImages_thrown (images : List Image) (s s1 : State) (message : String)
    (h : renderImages images s = .thrown message s1) : s1.gallery = s.gallery := by
  unfold renderImages at h
  split at h
  · simp only [Outcome.thrown.injEq] at h
    rw [← h.2]
  · simp at h

theorem fetchFinally_frame (s : State) :
    (fetchFinally s).currentPage = s.currentPage ∧
    (fetchFinally s).currentImageIds = s.currentImageIds ∧
    (fetchFinally s).gallery = s.gallery ∧
    (fetchFinally s).isFetching = false ∧
    (fetchFinally s).loadMoreDisabled = false ∧
    (fetchFinally s).requests = s.requests ∧
    (fetchFinally s).responses = s.responses ∧
    (fetchFinally s).statusText = aggregateStatus s.gallery.length ∧
    (fetchFinally s).statusError = false := by
  unfold fetchFinally toggleLoader
  simp [updateGalleryState_frame, updateGalleryState_status]

theorem fetchImages_fetching (fuel : Nat) (src : Source) (page : Nat) (s : State)
    (h : s.isFetching = true) : fetchImages (fuel + 1) src page s = some s := by
  simp [fetchImages, h]

theorem fetchStart_isFetching (page : Nat) (s : State) : (fetchStart page s).isFetching = true := rfl

/-- While a fetch is pending the nested call of the `try` block returns at once,
whatever the depth bound. -/
theorem fetchTry_nested (fuel : Nat) (src : Source) (r : Response) (s : State)
    (h : s.isFetching = true) :
    fetchTry (fun s1 => fetchImages (fuel + 1) src s1.currentPage s1) r s = fetchTry some r s := by
  unfold fetchTry
  cases r <;> simp only []
  split_ifs <;> try rfl
  simp [fetchImages, h]

/-- The outcome of a call that passes the guard, for every depth bound from 2 on. -/
theorem fetchImages_idle (fuel : Nat) (src : Source) (page : Nat) (s : State)
    (h : s.isFetching = false) :
    fetchImages (fuel + 2) src page s = fetchResume some (src page) (fetchStart page s) := by
  rw [fetchImages]
  simp only [h, Bool.false_eq_true, if_false]
  have h1 := fetchTry_nested fuel src (src page)
    { fetchStart page s with responses := (fetchStart page s).responses + 1 } rfl
  simp only [fetchResume, h1]

/-- The `try` block whose nested call returns at once always ends, thrown or not,
with the flags and the ghost counters it started from and at most one page further. -/
theorem fetchTry_some_spec (r : Response) (s : State) :
    ∃ o, fetchTry some r s = some o ∧
      o.state.isFetching = s.isFetching ∧ o.state.loadMoreDisabled = s.loadMoreDisabled ∧
      o.state.requests = s.requests ∧ o.state.responses = s.responses ∧
      s.currentPage ≤ o.state.currentPage ∧ o.state.currentPage ≤ s.currentPage + 1 := by
  unfold fetchTry
  cases r <;> simp only []
  case ok data =>
    split_ifs
    · have hf := renderImages_frame
        (data.filter (fun img => decide (img.id ∉ s.currentImageIds))) s
      cases hr : renderImages (data.filter (fun img => decide (img.id ∉ s.currentImageIds))) s
      all_goals
        rw [hr] at hf
        simp only [Outcome.state] at hf
        refine ⟨_, rfl, ?_⟩
        simp [Outcome.state, hf]
    all_goals
      refine ⟨_, rfl, ?_⟩
      simp [Outcome.state]
  all_goals
    refine ⟨_, rfl, ?_⟩
    simp [Outcome.state]

/-- The resumed half of a call whose nested call returns at once always ends, in
a state that is idle again, one response further and at most one page further. -/
theorem fetchResume_some_spec (r : Response) (s : State) :
    ∃ s1, fetchResume some r s = some s1 ∧
      s1.isFetching = false ∧ s1.loadMoreDisabled = false ∧
      s1.requests = s.requests ∧ s1.responses = s.responses + 1 ∧
      s.currentPage ≤ s1.currentPage ∧ s1.currentPage ≤ s.currentPage + 1 ∧
      s1.statusText = aggregateStatus s1.gallery.length ∧ s1.statusError = false := by
  obtain ⟨o, ho, -, -, hrq, hrs, hlo, hhi⟩ :=
    fetchTry_some_spec r { s with responses := s.responses + 1 }
  unfold fetchResume
  simp only [ho]
  cases o with
  | done s1 =>
    simp only [Outcome.state] at hrq hrs hlo hhi
    refine ⟨_, rfl, ?_⟩
    simp [fetchFinally_frame, hrq, hrs, hlo, hhi]
  | thrown message s1 =>
    simp only [Outcome.state] at hrq hrs hlo hhi
    refine ⟨_, rfl, ?_⟩
    simp [fetchFinally_frame, fetchCatch, hrq, hrs, hlo, hhi]

/-- On a response without item list the resumed half changes neither the cursor,
the known ids nor the cards. -/
theorem fetchResume_failed (nested : State → Option State) (r : Response) (s : State)
    (hr : r.failed = true) :
    ∃ s1, fetchResume nested r s = some s1 ∧
      s1.currentPage = s.currentPage ∧ s1.currentImageIds = s.currentImageIds ∧
      s1.gallery = s.gallery ∧ s1.requests = s.requests ∧
      s1.isFetching = false ∧ s1.loadMoreDisabled = false ∧
      s1.statusText = aggregateStatus s.gallery.length ∧ s1.statusError = false := by
  unfold fetchResume fetchTry
  cases r <;> simp only [] <;> simp [Response.failed] at hr
  all_goals
    refine ⟨_, rfl, ?_⟩
    simp [fetchFinally_frame, fetchCatch]

/-- While a fetch is pending the nested call of the resumed half returns at once,
whatever the depth bound. -/
theorem fetchResume_nested (src : Source) (r : Response) (s : State)
    (h : s.isFetching = true) :
    fetchResume (fun s1 => fetchImages 1 src s1.currentPage s1) r s = fetchResume some r s := by
  have h1 := fetchTry_nested 0 src r { s with responses := s.responses + 1 } h
  simp only [fetchResume, h1]

theorem handleClearGallery_frame (s : State) :
    (handleClearGallery s).isFetching = s.isFetching ∧
    (handleClearGallery s).loadMoreDisabled = s.loadMoreDisabled ∧
    (handleClearGallery s).requests = s.requests ∧
    (handleClearGallery s).responses = s.responses := by
  unfold handleClearGallery
  split_ifs <;> simp [updateGalleryState_frame]

theorem handleRemoveLast_frame (s : State) :
    (handleRemoveLast s).currentPage = s.currentPage ∧
    (handleRemoveLast s).isFetching = s.isFetching ∧
    (handleRemoveLast s).loadMoreDisabled = s.loadMoreDisabled ∧
    (handleRemoveLast s).requests = s.requests ∧
    (handleRemoveLast s).responses = s.responses := by
  unfold handleRemoveLast
  simp only []
  split <;> simp [updateGalleryState_frame]

theorem handleReverseGallery_frame (s : State) :
    (handleReverseGallery s).currentPage = s.currentPage ∧
    (handleReverseGallery s).currentImageIds = s.currentImageIds ∧
    (handleReverseGallery s).isFetching = s.isFetching ∧
    (handleReverseGallery s).loadMoreDisabled = s.loadMoreDisabled ∧
    (handleReverseGallery s).requests = s.requests ∧
    (handleReverseGallery s).responses = s.responses := by
  unfold handleReverseGallery
  simp only []
  split_ifs <;> simp [updateGalleryState_frame]

theorem handleLikeClick_frame (i : Nat) (s : State) :
    (handleLikeClick i s).currentPage = s.currentPage ∧
    (handleLikeClick i s).currentImageIds = s.currentImageIds ∧
    (handleLikeClick i s).isFetching = s.isFetching ∧
    (handleLikeClick i s).loadMoreDisabled = s.loadMoreDisabled ∧
    (handleLikeClick i s).requests = s.requests ∧
    (handleLikeClick i s).responses = s.responses := by
  unfold handleLikeClick
  split <;> simp

theorem step_synced (src : Source) (e : Event) (s s1 : State)
    (hs : Synced s) (h : step src e s = some s1) : Synced s1 := by
  unfold Synced at *
  cases e <;> simp only [step] at h
  case call page =>
    split_ifs at h with hf <;> simp only [Option.some.injEq] at h <;> subst h
    · exact hs
    · simp [fetchStart, toggleLoader, hf] at hs ⊢
      omega
  case loadMore =>
    split_ifs at h with hf <;> simp only [Option.some.injEq] at h <;> subst h
    · exact hs
    · simp [fetchStart, toggleLoader, hf] at hs ⊢
      omega
  case respond r =>
    split_ifs at h with hf
    rw [fetchResume_nested src r s hf] at h
    obtain ⟨s2, h2, hfl, -, hrq, hrs, -⟩ := fetchResume_some_spec r s
    rw [h2] at h
    simp only [Option.some.injEq] at h
    subst h
    simp [hfl, hrq, hrs, hf] at hs ⊢
    omega
  case clear =>
    simp only [Option.some.injEq] at h
    subst h
    simpa [handleClearGallery_frame] using hs
  case removeLast =>
    simp only [Option.some.injEq] at h
    subst h
    simpa [handleRemoveLast_frame] using hs
  case reverse =>
    simp only [Option.some.injEq] at h
    subst h
    simpa [handleReverseGallery_frame] using hs
  case like i =>
    simp only [Option.some.injEq] at h
    subst h
    simpa [handleLikeClick_frame] using hs
  case render images =>
    simp only [Option.some.injEq] at h
    subst h
    simpa [renderImages_frame] using hs

/-- A property kept by every event holds after every sequence of events. -/
theorem run_induction (P : State → Prop) (src : Source)
    (hstep : ∀ e s s1, P s → step src e s = some s1 → P s1) :
    ∀ (evs : List Event) (s s1 : State), P s → run src evs s = some s1 → P s1 := by
  intro evs
  induction evs with
  | nil =>
    intro s s1 hs h
    simp only [run, Option.some.injEq] at h
    exact h ▸ hs
  | cons e es ih =>
    intro s s1 hs h
    simp only [run, Option.bind_eq_some] at h
    obtain ⟨s2, h2, h3⟩ := h
    exact ih s2 s1 (hstep e s s2 hs h2) h3

/-! ## The fetch boundary -/

/-- C9: while a fetch is in flight, a call `fetchImages(page)` returns at its guard,
for every page and every depth bound: it yields the state it was given, so the
flag, the cursor, the known ids, the cards, the buttons, the status and the request
log are all as they were. Consequently, along every sequence of events from the
initial state at most one request is outstanding (the responses never exceed the
requests), and one is outstanding exactly while the flag is set. -/
theorem inflight_guard_noop :
    (∀ (fuel : Nat) (src : Source) (page : Nat) (s : State), s.isFetching = true →
        fetchImages (fuel + 1) src page s = some s) ∧
    (∀ (src : Source) (evs : List Event) (s : State),
        run src evs initialState = some s →
          outstanding s ≤ 1 ∧ s.responses ≤ s.requests.length ∧
          (outstanding s = 1 ↔ s.isFetching = true)) := by
  refine ⟨fun fuel src page s h => fetchImages_fetching fuel src page s h, ?_⟩
  intro src evs s h
  have hsync : Synced s :=
    run_induction Synced src (step_synced src) evs initialState s (by simp [Synced, initialState]) h
  unfold Synced at hsync
  unfold outstanding
  split_ifs at hsync with hf
  · simp only [hf, iff_true]
    omega
  · simp only [hf, Bool.false_eq_true, iff_false]
    omega

/-- Witness of C9: a second call while the first request of the initial load is
pending changes nothing, and one request is then outstanding. -/
theorem inflight_guard_noop_witness :
    (fetchStart 1 initialState).isFetching = true ∧
    fetchImages 1 scenarioSource 7 (fetchStart 1 initialState) = some (fetchStart 1 initialState) ∧
    run scenarioSource [.loadMore, .loadMore, .call 7] initialState
      = some (fetchStart 1 initialState) ∧
    outstanding (fetchStart 1 initialState) ≤ 1 :=
  ⟨rfl, inflight_guard_noop.1 0 scenarioSource 7 (fetchStart 1 initialState) rfl, rfl,
    (inflight_guard_noop.2 scenarioSource [.loadMore, .loadMore, .call 7] _ rfl).1⟩

/-- One call of `fetchImages` ends, with every depth bound from 2 on, in one and the
same state, with at most the request for `page` added and the cursor at most one
page further. -/
theorem fetchImages_settles (src : Source) (page : Nat) (s : State) :
    ∃ s1, (∀ fuel, fetchImages (fuel + 2) src page s = some s1) ∧
      (s1.requests = s.requests ∨ s1.requests = s.requests ++ [page]) ∧
      s.currentPage ≤ s1.currentPage ∧ s1.currentPage ≤ s.currentPage + 1 := by
  cases hf : s.isFetching
  · obtain ⟨s1, h1, -, -, hrq, -, hlo, hhi, -⟩ := fetchResume_some_spec (src page) (fetchStart page s)
    refine ⟨s1, fun fuel => ?_, Or.inr ?_, ?_, ?_⟩
    · rw [fetchImages_idle fuel src page s hf, h1]
    · rw [hrq]; rfl
    · exact hlo
    · exact hhi
  · exact ⟨s, fun fuel => fetchImages_fetching (fuel + 1) src page s hf, Or.inl rfl,
      le_refl _, Nat.le_succ _⟩

/-- C10: for every source, page and state, one top-level call of `fetchImages`
ends with every depth bound from 2 on (the call itself and one nested call, which
returns at the guard because the in-flight flag is still set) in one and the same
state; it has issued at most one request, the one for `page`, and moved the cursor
forward by at most 1. -/
theorem fetchImages_bounded_work (src : Source) (page : Nat) (s : State) :
    ∃ s1, (∀ fuel, fetchImages (fuel + 2) src page s = some s1) ∧
      (s1.requests = s.requests ∨ s1.requests = s.requests ++ [page]) ∧
      s.currentPage ≤ s1.currentPage ∧ s1.currentPage ≤ s.currentPage + 1 :=
  fetchImages_settles src page s

/-- From an idle state, when the request fails, the response is not OK or the body
does not decode to an array of records, the call ends (with every positive depth
bound) in a state with the cursor, the known ids and the cards it started from; the
request for `page` is the only one issued, the in-flight flag is cleared and the
load-more button enabled. -/
theorem fetchImages_failed_atomic (fuel : Nat) (src : Source) (page : Nat) (s : State)
    (hidle : s.isFetching = false) (hfailed : (src page).failed = true) :
    ∃ s1, fetchImages (fuel + 1) src page s = some s1 ∧
      s1.currentPage = s.currentPage ∧ s1.currentImageIds = s.currentImageIds ∧
      s1.gallery = s.gallery ∧ s1.requests = s.requests ++ [page] ∧
      s1.isFetching = false ∧ s1.loadMoreDisabled = false := by
  obtain ⟨s1, h1, hp, hi, hg, hrq, hfl, hld, -⟩ :=
    fetchResume_failed (fun s1 => fetchImages fuel src s1.currentPage s1) (src page)
      (fetchStart page s) hfailed
  refine ⟨s1, ?_, hp, hi, hg, hrq, hfl, hld⟩
  rw [fetchImages]
  simp only [hidle, Bool.false_eq_true, if_false]
  exact h1

/-- An instance of `fetchImages_failed_atomic`: with four cards loaded and the cursor
at 2, a load answered by HTTP 500 keeps the four cards, the four known ids and the
cursor. -/
theorem fetchImages_failed_atomic_witness :
    loadedState.isFetching = false ∧ (failingSource 2).failed = true ∧
    dataIds loadedState = ["1", "2", "3", "4"] ∧ loadedState.currentPage = 2 ∧
    ∃ s1, fetchImages 1 failingSource 2 loadedState = some s1 ∧
      s1.currentPage = loadedState.currentPage ∧
      s1.currentImageIds = loadedState.currentImageIds ∧
      s1.gallery = loadedState.gallery ∧ s1.requests = loadedState.requests ++ [2] ∧
      s1.isFetching = false ∧ s1.loadMoreDisabled = false :=
  ⟨by decide, rfl, by decide, by decide,
    fetchImages_failed_atomic 0 failingSource 2 loadedState (by decide) rfl⟩

/-- C4 (evaluation at the failing input): the first load is answered by an HTTP 200
body of two records, the second with an author that has no text. `renderImages` adds
the id of the first record to the known ids, then `createImageCard` throws on the
second. The error is caught: no card is inserted, the cursor stays at 1, one request
was issued, the flag is cleared and the button enabled; but the known ids are not
what they were before the call, they now hold the id "1" of a record that has no
card. A later load of a page with that record alone shows no card either. -/
theorem render_error_keeps_added_id :
    initialState.currentImageIds = ∅ ∧
    renderImages [itemS "1", brokenItem] (fetchStart 1 initialState)
      = .thrown "Cannot convert object to primitive value"
          { fetchStart 1 initialState with currentImageIds := {Id.str "1"} } ∧
    (∃ s, fetchImages 2 brokenSource 1 initialState = some s ∧
      s.currentImageIds = {Id.str "1"} ∧ s.currentImageIds ≠ initialState.currentImageIds ∧
      s.gallery = [] ∧ s.currentPage = 1 ∧ s.requests = [1] ∧
      s.isFetching = false ∧ s.loadMoreDisabled = false) ∧
    (∃ s, (fetchImages 2 brokenSource 1 initialState).bind (fetchImages 2 healedSource 1)
        = some s ∧
      s.currentImageIds = {Id.str "1"} ∧ s.gallery = [] ∧ s.currentPage = 2) :=
  ⟨rfl, rfl, ⟨_, rfl, by decide, by decide, by decide, by decide, by decide, by decide,
    by decide⟩, ⟨_, rfl, by decide, by decide, by decide⟩⟩

/-- From an idle state every call, whatever the response, ends with the aggregate
status of the cards then shown and a cleared error flag. -/
theorem fetchImages_final_status (src : Source) (page : Nat) (s : State)
    (hidle : s.isFetching = false) :
    ∃ s1, (∀ fuel, fetchImages (fuel + 2) src page s = some s1) ∧
      s1.statusText = aggregateStatus s1.gallery.length ∧ s1.statusError = false := by
  obtain ⟨s1, h1, -, -, -, -, -, -, hst, her⟩ :=
    fetchResume_some_spec (src page) (fetchStart page s)
  exact ⟨s1, fun fuel => by rw [fetchImages_idle fuel src page s hidle, h1], hst, her⟩

/-- From an idle state a call whose request fails, whose response is not OK or whose
body does not decode ends with the aggregate status and a cleared error flag: the
`finally` block overwrites what the `catch` block wrote. -/
theorem fetchImages_error_status (fuel : Nat) (src : Source) (page : Nat) (s : State)
    (hidle : s.isFetching = false) (hfailed : (src page).failed = true) :
    ∃ s1, fetchImages (fuel + 1) src page s = some s1 ∧
      s1.statusText = aggregateStatus s.gallery.length ∧ s1.statusError = false := by
  obtain ⟨s1, h1, -, -, -, -, -, -, hst, her⟩ :=
    fetchResume_failed (fun s1 => fetchImages fuel src s1.currentPage s1) (src page)
      (fetchStart page s) hfailed
  refine ⟨s1, ?_, hst, her⟩
  rw [fetchImages]
  simp only [hidle, Bool.false_eq_true, if_false]
  exact h1

/-- C3 (evaluation at the failing inputs): after the initial load has failed with
HTTP 500 the status line is the empty-gallery text with the error flag off; after a
good first page and a network failure on the second load it is the card count, again
with the error flag off. In neither case is it the error message of the `catch`
block. -/
theorem fetch_error_status_overwritten :
    (fetchImages 2 failingSource 1 initialState).map (fun s => (s.statusText, s.statusError))
      = some ("Галерея очікує на завантаження картинок.", false) ∧
    ((handleLoadMore 2 flakySource initialState).bind (handleLoadMore 2 flakySource)).map
        (fun s => (s.gallery.length, s.statusText, s.statusError))
      = some (4, "Загальна кількість картинок: 4", false) ∧
    fetchCatch (Response.errorMessage (.notOk 500 "Internal Server Error")) initialState
      = updateStatus "❌ Помилка завантаження: Помилка HTTP: 500 Internal Server Error" true
          initialState := by
  decide

/-- C1 (evaluation at the scenario): with pages 1 and 2 both holding ids 1 to 4 and
page 3 holding id 5, two load-more calls from the initial state leave 4 cards (ids
1 to 4), the cursor at 3 and the request log at pages 1 and 2: page 3 is never
requested, for the nested call runs while the in-flight flag is still set. -/
theorem duplicate_page_not_skipped :
    ((handleLoadMore 10 scenarioSource initialState).bind (handleLoadMore 10 scenarioSource)).map
        (fun s => (s.gallery.map Card.dataId, s.currentPage, s.requests, s.isFetching))
      = some (["1", "2", "3", "4"], 3, [1, 2], false) := by
  decide

/-- From an idle state, a non-empty page all of whose ids are known makes the call
end with the same cards and known ids, the cursor one page further and the request for
`page` as the only one issued: the following page is not requested. -/
theorem fetchImages_all_duplicates (src : Source) (page : Nat) (s : State)
    (data : List Image) (hidle : s.isFetching = false) (hdata : src page = .ok data)
    (hne : data ≠ []) (hdup : ∀ img ∈ data, img.id ∈ s.currentImageIds) :
    ∃ s1, (∀ fuel, fetchImages (fuel + 2) src page s = some s1) ∧
      s1.gallery = s.gallery ∧ s1.currentImageIds = s.currentImageIds ∧
      s1.currentPage = s.currentPage + 1 ∧ s1.requests = s.requests ++ [page] := by
  have hfilter : data.filter (fun img => decide (img.id ∉ s.currentImageIds)) = [] := by
    rw [List.filter_eq_nil_iff]
    intro img himg
    simpa using hdup img himg
  have hlen : data.length > 0 := List.length_pos.mpr hne
  have hres : ∃ s1, fetchResume some (.ok data) (fetchStart page s) = some s1 ∧
      s1.gallery = s.gallery ∧ s1.currentImageIds = s.currentImageIds ∧
      s1.currentPage = s.currentPage + 1 ∧ s1.requests = s.requests ++ [page] := by
    unfold fetchResume fetchTry
    have hfilter1 : data.filter (fun img => decide (img.id ∉
        ({ fetchStart page s with
            responses := (fetchStart page s).responses + 1 } : State).currentImageIds)) = [] :=
      hfilter
    simp only [hfilter1, List.length_nil, gt_iff_lt, lt_self_iff_false, if_false, hlen, if_true]
    refine ⟨_, rfl, ?_⟩
    simp [fetchFinally_frame, fetchStart, toggleLoader]
  obtain ⟨s1, h1, hrest⟩ := hres
  refine ⟨s1, fun fuel => ?_, hrest⟩
  rw [fetchImages_idle fuel src page s hidle, hdata, h1]

/-! ## The list mutators -/

theorem handleClearGallery_nonempty (s : State) (h : s.gallery ≠ []) :
    (handleClearGallery s).gallery = [] ∧ (handleClearGallery s).currentImageIds = ∅ ∧
    (handleClearGallery s).currentPage = 1 ∧
    (handleClearGallery s).statusText = "Галерея очікує на завантаження картинок." ∧
    (handleClearGallery s).statusError = false := by
  have hlen : s.gallery.length ≠ 0 := by simpa using h
  unfold handleClearGallery
  simp only [hlen, if_false]
  simp [updateGalleryState]

theorem handleClearGallery_empty (s : State) (h : s.gallery = []) :
    handleClearGallery s
      = { s with statusText := "Галерея вже порожня.", statusError := false } := by
  simp [handleClearGallery, h, updateStatus]

/-- C8: on a non-empty list `handleClearGallery` leaves no card, an empty known-id
set and the cursor at 1, and the final status is the empty-gallery text of
`updateGalleryState` (in flight or not); on an empty list it only writes the
already-empty text, every other component, the cursor included, staying as it was. -/
theorem handleClearGallery_spec (s : State) :
    (s.gallery ≠ [] →
      (handleClearGallery s).gallery = [] ∧ (handleClearGallery s).currentImageIds = ∅ ∧
      (handleClearGallery s).currentPage = 1 ∧
      (handleClearGallery s).statusText = "Галерея очікує на завантаження картинок." ∧
      (handleClearGallery s).statusError = false) ∧
    (s.gallery = [] →
      handleClearGallery s
        = { s with statusText := "Галерея вже порожня.", statusError := false }) :=
  ⟨handleClearGallery_nonempty s, handleClearGallery_empty s⟩

/-- Witness of C8: clearing a gallery of three cards, and clearing the empty
gallery of the initial state. -/
theorem handleClearGallery_spec_witness :
    threeCards.gallery.length = 3 ∧
    ((handleClearGallery threeCards).gallery = [] ∧
      (handleClearGallery threeCards).currentImageIds = ∅ ∧
      (handleClearGallery threeCards).currentPage = 1 ∧
      (handleClearGallery threeCards).statusText = "Галерея очікує на завантаження картинок." ∧
      (handleClearGallery threeCards).statusError = false) ∧
    handleClearGallery initialState
      = { initialState with statusText := "Галерея вже порожня.", statusError := false } :=
  ⟨by decide, (handleClearGallery_spec threeCards).1 (by decide),
    (handleClearGallery_spec initialState).2 rfl⟩

/-- C7: on a list of at least 2 cards `handleReverseGallery` turns the cards into
their exact reverse and leaves the known ids and the cursor alone, and a second
application gives back the original list; on a list of 0 or 1 cards it only writes the
at-least-2 text, every other component staying as it was. -/
theorem handleReverseGallery_involution (s : State) :
    (2 ≤ s.gallery.length →
      (handleReverseGallery s).gallery = s.gallery.reverse ∧
      (handleReverseGallery s).currentImageIds = s.currentImageIds ∧
      (handleReverseGallery s).currentPage = s.currentPage ∧
      (handleReverseGallery (handleReverseGallery s)).gallery = s.gallery ∧
      (handleReverseGallery (handleReverseGallery s)).currentImageIds = s.currentImageIds ∧
      (handleReverseGallery (handleReverseGallery s)).currentPage = s.currentPage) ∧
    (s.gallery.length < 2 →
      handleReverseGallery s
        = { s with statusText := "Потрібно щонайменше 2 картинки для перевороту.",
                   statusError := false }) := by
  have hrev : ∀ t : State, 2 ≤ t.gallery.length →
      (handleReverseGallery t).gallery = t.gallery.reverse := by
    intro t ht
    have : ¬ t.gallery.length < 2 := by omega
    unfold handleReverseGallery
    simp only [this, if_false]
    simp [updateGalleryState_frame]
  constructor
  · intro h
    have h1 := hrev s h
    have h2 : 2 ≤ (handleReverseGallery s).gallery.length := by
      rw [h1, List.length_reverse]; exact h
    refine ⟨h1, (handleReverseGallery_frame s).2.1, (handleReverseGallery_frame s).1, ?_, ?_, ?_⟩
    · rw [hrev _ h2, h1, List.reverse_reverse]
    · rw [(handleReverseGallery_frame _).2.1, (handleReverseGallery_frame s).2.1]
    · rw [(handleReverseGallery_frame _).1, (handleReverseGallery_frame s).1]
  · intro h
    simp [handleReverseGallery, h, updateStatus]

/-- Witness of C7: reversing a gallery of three cards once and twice, and reversing
the empty gallery of the initial state. -/
theorem handleReverseGallery_involution_witness :
    threeCards.gallery.map Card.dataId = ["10", "11", "12"] ∧
    (handleReverseGallery threeCards).gallery.map Card.dataId = ["12", "11", "10"] ∧
    (handleReverseGallery (handleReverseGallery threeCards)).gallery = threeCards.gallery ∧
    handleReverseGallery initialState
      = { initialState with statusText := "Потрібно щонайменше 2 картинки для перевороту.",
                            statusError := false } :=
  ⟨by decide,
    by rw [((handleReverseGallery_involution threeCards).1 (by decide)).1]; decide,
    ((handleReverseGallery_involution threeCards).1 (by decide)).2.2.2.1,
    (handleReverseGallery_involution initialState).2 (by decide)⟩

/-! ## The page cursor -/

theorem handleClearGallery_cursor (s : State) :
    (s.gallery = [] → (handleClearGallery s).currentPage = s.currentPage) ∧
    (s.gallery ≠ [] → (handleClearGallery s).currentPage = 1) := by
  constructor
  · intro h
    simp [handleClearGallery, h]
  · intro h
    exact (handleClearGallery_nonempty s h).2.2.1

/-- Every event other than the clear click keeps or raises the cursor. -/
theorem step_cursor_mono (src : Source) (e : Event) (s s1 : State)
    (he : e ≠ .clear) (h : step src e s = some s1) : s.currentPage ≤ s1.currentPage := by
  cases e <;> simp only [step] at h
  case call page =>
    split_ifs at h <;> simp only [Option.some.injEq] at h <;> subst h <;> exact le_refl _
  case loadMore =>
    split_ifs at h <;> simp only [Option.some.injEq] at h <;> subst h <;> exact le_refl _
  case respond r =>
    split_ifs at h with hf
    rw [fetchResume_nested src r s hf] at h
    obtain ⟨s2, h2, -, -, -, -, hlo, -⟩ := fetchResume_some_spec r s
    rw [h2] at h
    simp only [Option.some.injEq] at h
    exact h ▸ hlo
  case clear => exact absurd rfl he
  case removeLast =>
    simp only [Option.some.injEq] at h
    subst h
    exact le_of_eq (handleRemoveLast_frame s).1.symm
  case reverse =>
    simp only [Option.some.injEq] at h
    subst h
    exact le_of_eq (handleReverseGallery_frame s).1.symm
  case like i =>
    simp only [Option.some.injEq] at h
    subst h
    exact le_of_eq (handleLikeClick_frame i s).1.symm
  case render images =>
    simp only [Option.some.injEq] at h
    subst h
    exact le_of_eq (renderImages_frame images s).1.symm

theorem step_cursor_pos (src : Source) (e : Event) (s s1 : State)
    (hs : 1 ≤ s.currentPage) (h : step src e s = some s1) : 1 ≤ s1.currentPage := by
  by_cases he : e = .clear
  · subst he
    simp only [step, Option.some.injEq] at h
    subst h
    by_cases hg : s.gallery = []
    · rw [(handleClearGallery_cursor s).1 hg]; exact hs
    · rw [(handleClearGallery_cursor s).2 hg]
  · exact le_trans hs (step_cursor_mono src e s s1 he h)

/-- C6: the cursor starts at 1. A whole call of `fetchImages` (any source, page and
state) ends with a cursor not below the one it started from, and so does a pending
request settling with any response; `handleRemoveLast`, `handleReverseGallery`,
`renderImages` (whether it throws or not) and `handleLikeClick` keep the cursor; `handleClearGallery` keeps it on
an empty list and sets it to exactly 1 on a non-empty one; every event other than the
clear click keeps or raises it. Hence after every sequence of events from the initial
state the cursor is at least 1. -/
theorem cursor_monotone :
    initialState.currentPage = 1 ∧
    (∀ (src : Source) (page : Nat) (s : State),
      ∃ s1, (∀ fuel, fetchImages (fuel + 2) src page s = some s1) ∧
        s.currentPage ≤ s1.currentPage) ∧
    (∀ (src : Source) (r : Response) (s : State), s.isFetching = true →
      ∃ s1, step src (.respond r) s = some s1 ∧ s.currentPage ≤ s1.currentPage) ∧
    (∀ s : State, (handleRemoveLast s).currentPage = s.currentPage) ∧
    (∀ s : State, (handleReverseGallery s).currentPage = s.currentPage) ∧
    (∀ (images : List Image) (s : State),
      (renderImages images s).state.currentPage = s.currentPage) ∧
    (∀ (i : Nat) (s : State), (handleLikeClick i s).currentPage = s.currentPage) ∧
    (∀ s : State, s.gallery = [] → (handleClearGallery s).currentPage = s.currentPage) ∧
    (∀ s : State, s.gallery ≠ [] → (handleClearGallery s).currentPage = 1) ∧
    (∀ (src : Source) (e : Event) (s s1 : State), e ≠ .clear → step src e s = some s1 →
      s.currentPage ≤ s1.currentPage) ∧
    (∀ (src : Source) (evs : List Event) (s : State),
      run src evs initialState = some s → 1 ≤ s.currentPage) := by
  refine ⟨rfl, ?_, ?_, fun s => (handleRemoveLast_frame s).1,
    fun s => (handleReverseGallery_frame s).1, fun images s => (renderImages_frame images s).1,
    fun i s => (handleLikeClick_frame i s).1, fun s => (handleClearGallery_cursor s).1,
    fun s => (handleClearGallery_cursor s).2, step_cursor_mono, ?_⟩
  · intro src page s
    obtain ⟨s1, h1, -, hlo, -⟩ := fetchImages_settles src page s
    exact ⟨s1, h1, hlo⟩
  · intro src r s hf
    obtain ⟨s1, h1, -, -, -, -, hlo, -⟩ := fetchResume_some_spec r s
    refine ⟨s1, ?_, hlo⟩
    simp only [step, hf, if_true]
    rw [fetchResume_nested src r s hf, h1]
  · intro src evs s h
    exact run_induction (fun t => 1 ≤ t.currentPage) src (step_cursor_pos src) evs initialState s
      (le_refl _) h

/-- Witness of C6: after the first page the cursor is 2; a clear click on the four
cards sets it back to 1, a reverse click keeps it, and after load, response and clear
from the initial state it is at least 1. -/
theorem cursor_monotone_witness :
    loadedState.currentPage = 2 ∧ loadedState.gallery ≠ [] ∧
    (handleClearGallery loadedState).currentPage = 1 ∧
    (handleReverseGallery loadedState).currentPage = 2 ∧
    1 ≤ (handleClearGallery loadedState).currentPage :=
  ⟨by decide, by decide, cursor_monotone.2.2.2.2.2.2.2.2.1 loadedState (by decide),
    cursor_monotone.2.2.2.2.1 loadedState,
    cursor_monotone.2.2.2.2.2.2.2.2.2.2 scenarioSource [.loadMore, .respond (scenarioSource 1), .clear]
      (handleClearGallery loadedState) (by decide)⟩

/-! ## The known-id set -/

/-- An item whose fields have a text gives a card that carries its id. -/
theorem createImageCard_plain (image : Image) (h : image.isPlain = true) :
    ∃ card, createImageCard image = .ok card ∧ card.dataId = image.id.text := by
  simp only [Image.isPlain, Bool.and_eq_true] at h
  obtain ⟨⟨-, ha⟩, hu⟩ := h
  cases hau : image.author with
  | noText m => simp [hau, Value.isText] at ha
  | text a =>
    cases hur : image.url with
    | noText m => simp [hur, Value.isText] at hu
    | text u =>
      refine ⟨{ dataId := image.id.text
                imgSrc := "https://picsum.photos/id/" ++ image.id.text ++ "/400/300"
                alt := "Зображення від " ++ a
                author := a
                href := u
                liked := false }, ?_, rfl⟩
      simp [createImageCard, hau, hur, Value.toText]

theorem renderLoop_spec (g : List Card) :
    ∀ (images : List Image) (ids : Finset Id) (html : List Card) (n : Nat),
      (∀ img ∈ images, img.isPlain = true) →
      ((g ++ html).map Card.dataId).Nodup →
      ids = (((g ++ html).map Card.dataId).map Id.str).toFinset →
      ∃ new, renderLoop images (ids, html, n)
          = .ok ((((g ++ (html ++ new)).map Card.dataId).map Id.str).toFinset,
              html ++ new, n + new.length) ∧
        ((g ++ (html ++ new)).map Card.dataId).Nodup := by
  intro images
  induction images with
  | nil =>
    intro ids html n _ hnd hids
    exact ⟨[], by simp [renderLoop, hids], by simpa using hnd⟩
  | cons image rest ih =>
    intro ids html n hstr hnd hids
    have hrest : ∀ img ∈ rest, img.isPlain = true := fun img h =>
      hstr img (List.mem_cons_of_mem _ h)
    have hplain := hstr image (List.mem_cons_self _ _)
    obtain ⟨t, ht⟩ : ∃ t, image.id = Id.str t := by
      have : image.id.isStr = true := by
        simp only [Image.isPlain, Bool.and_eq_true] at hplain
        exact hplain.1.1
      cases hid : image.id with
      | str t => exact ⟨t, rfl⟩
      | num k => simp [hid, Id.isStr] at this
    obtain ⟨card, hcreate, hdata⟩ := createImageCard_plain image hplain
    have hcard : card.dataId = t := by rw [hdata, ht]; rfl
    rw [renderLoop.eq_def]
    simp only []
    by_cases hmem : image.id ∉ ids
    · simp only [hmem, not_false_eq_true, if_true, hcreate]
      have hnew : t ∉ (g ++ html).map Card.dataId := by
        intro hin
        apply hmem
        rw [hids, ht]
        simpa using hin
      have hnd1 : ((g ++ (html ++ [card])).map Card.dataId).Nodup := by
        rw [← List.append_assoc, List.map_append, List.nodup_append]
        refine ⟨hnd, by simp, ?_⟩
        intro a ha hb
        simp only [List.map_cons, List.map_nil, List.mem_singleton] at hb
        rw [hb, hcard] at ha
        exact hnew ha
      have hids1 : insert image.id ids
          = (((g ++ (html ++ [card])).map Card.dataId).map Id.str).toFinset := by
        rw [hids, ht, ← List.append_assoc]
        simp only [List.map_append, List.map_cons, List.map_nil, List.toFinset_append,
          List.toFinset_cons, List.toFinset_nil, hcard]
        ext x
        simp only [Finset.mem_insert, Finset.mem_union, Finset.not_mem_empty, or_false]
        tauto
      obtain ⟨new, h1, h3⟩ := ih (insert image.id ids) (html ++ [card])
        (n + 1) hrest hnd1 hids1
      refine ⟨card :: new, ?_, ?_⟩
      · rw [h1]
        simp only [List.append_assoc, List.singleton_append, List.length_cons]
        congr 3
        omega
      · simpa using h3
    · simp only [hmem, if_false]
      exact ih ids html n hrest hnd hids

theorem updateGalleryState_textConsistent (s : State) (h : TextConsistent s) :
    TextConsistent (updateGalleryState s) := by
  unfold TextConsistent dataIds at *
  rw [(updateGalleryState_frame s).2.2.1, (updateGalleryState_frame s).2.1]
  exact h

/-- With items that have string ids and text fields `renderImages` does not throw
and keeps the known ids in step with the cards. -/
theorem renderImages_textConsistent (images : List Image) (s : State)
    (himg : ∀ img ∈ images, img.isPlain = true) (h : TextConsistent s) :
    ∃ s1, renderImages images s = .done s1 ∧ TextConsistent s1 := by
  obtain ⟨new, h1, h3⟩ := renderLoop_spec s.gallery images s.currentImageIds [] 0 himg
    (by simpa [dataIds] using h.1) (by simpa [dataIds] using h.2)
  unfold renderImages
  simp only [h1, List.nil_append, Nat.zero_add]
  refine ⟨_, rfl, ?_⟩
  apply updateGalleryState_textConsistent
  simp only [List.nil_append] at h3
  split_ifs with hpos
  · exact ⟨by simpa [dataIds] using h3, by simp [dataIds]⟩
  · have hnil : new = [] := List.eq_nil_of_length_eq_zero (by omega)
    subst hnil
    exact ⟨by simpa [dataIds] using h3, by simp [dataIds]⟩

theorem handleClearGallery_textConsistent (s : State) (h : TextConsistent s) :
    TextConsistent (handleClearGallery s) := by
  unfold handleClearGallery
  split_ifs
  · exact h
  · apply updateGalleryState_textConsistent
    simp [TextConsistent, dataIds]

theorem handleRemoveLast_textConsistent (s : State) (h : TextConsistent s) :
    TextConsistent (handleRemoveLast s) := by
  unfold handleRemoveLast
  simp only []
  split
  next lastCard hlast =>
    apply updateGalleryState_textConsistent
    have hg : s.gallery = s.gallery.dropLast ++ [lastCard] := by
      have := List.dropLast_append_getLast? lastCard (by simpa using hlast)
      exact this.symm
    obtain ⟨hnd, hids⟩ := h
    unfold dataIds at hnd hids
    rw [hg, List.map_append, List.nodup_append] at hnd
    obtain ⟨hnd1, -, hdisj⟩ := hnd
    have hnot : lastCard.dataId ∉ s.gallery.dropLast.map Card.dataId := fun hin =>
      hdisj hin (by simp)
    refine ⟨by simpa [dataIds] using hnd1, ?_⟩
    simp only [updateStatus_ids, dataIds, updateStatus_gallery]
    rw [hids]
    conv_lhs => rw [hg]
    ext x
    simp only [List.map_append, List.map_cons, List.map_nil, Finset.mem_erase, List.mem_toFinset,
      List.mem_append, List.mem_map, List.mem_singleton]
    constructor
    · rintro ⟨hne, hx | hx⟩
      · exact hx
      · exact absurd hx hne
    · intro hx
      refine ⟨?_, Or.inl hx⟩
      obtain ⟨a, ha, rfl⟩ := hx
      intro heq
      apply hnot
      have : a = lastCard.dataId := by injection heq
      rw [← this]
      exact List.mem_map.mpr ha
  next => exact h

theorem handleReverseGallery_textConsistent (s : State) (h : TextConsistent s) :
    TextConsistent (handleReverseGallery s) := by
  unfold handleReverseGallery
  simp only []
  split_ifs
  · exact h
  · apply updateGalleryState_textConsistent
    obtain ⟨hnd, hids⟩ := h
    refine ⟨by simpa [dataIds] using hnd, ?_⟩
    simp only [updateStatus_ids, dataIds, updateStatus_gallery, List.nil_append]
    rw [hids]
    ext x
    simp [dataIds]

theorem toggleLiked_dataId (cards : List Card) (i : Nat) :
    (toggleLiked cards i).map Card.dataId = cards.map Card.dataId := by
  induction cards generalizing i with
  | nil => rfl
  | cons c cs ih =>
    cases i with
    | zero => simp [toggleLiked]
    | succ i => simp [toggleLiked, ih]

theorem handleLikeClick_textConsistent (i : Nat) (s : State) (h : TextConsistent s) :
    TextConsistent (handleLikeClick i s) := by
  unfold handleLikeClick
  split
  · exact h
  · simpa [TextConsistent, dataIds, toggleLiked_dataId] using h

theorem fetchFinally_textConsistent (s : State) (h : TextConsistent s) :
    TextConsistent (fetchFinally s) := by
  unfold TextConsistent dataIds at *
  rw [(fetchFinally_frame s).2.2.1, (fetchFinally_frame s).2.1]
  exact h

theorem fetchResume_textConsistent (r : Response) (s s1 : State)
    (hr : Event.plainItems (.respond r) = true) (h : TextConsistent s)
    (h1 : fetchResume some r s = some s1) : TextConsistent s1 := by
  have h0 : TextConsistent { s with responses := s.responses + 1 } := h
  unfold fetchResume fetchTry at h1
  cases r <;> simp only [Option.some.injEq] at h1
  case ok data =>
    simp only [Event.plainItems, List.all_eq_true] at hr
    split_ifs at h1
    · obtain ⟨s2, hren, hs2⟩ := renderImages_textConsistent
        (data.filter (fun img => decide (img.id ∉ s.currentImageIds)))
        { s with responses := s.responses + 1 }
        (fun img himg => hr img (List.mem_of_mem_filter himg)) h0
      simp only [hren, Option.some.injEq] at h1
      subst h1
      apply fetchFinally_textConsistent
      exact hs2
    · simp only [Option.some.injEq] at h1
      subst h1
      apply fetchFinally_textConsistent
      exact h0
    · simp only [Option.some.injEq] at h1
      subst h1
      apply fetchFinally_textConsistent
      exact h0
  all_goals
    subst h1
    apply fetchFinally_textConsistent
    exact h0

theorem step_textConsistent (src : Source) (e : Event) (s s1 : State)
    (he : e.plainItems = true) (hs : TextConsistent s) (h : step src e s = some s1) :
    TextConsistent s1 := by
  cases e <;> simp only [step] at h
  case call page =>
    split_ifs at h <;> simp only [Option.some.injEq] at h <;> subst h <;> exact hs
  case loadMore =>
    split_ifs at h <;> simp only [Option.some.injEq] at h <;> subst h <;> exact hs
  case respond r =>
    split_ifs at h with hf
    rw [fetchResume_nested src r s hf] at h
    exact fetchResume_textConsistent r s s1 he hs h
  case clear =>
    simp only [Option.some.injEq] at h
    exact h ▸ handleClearGallery_textConsistent s hs
  case removeLast =>
    simp only [Option.some.injEq] at h
    exact h ▸ handleRemoveLast_textConsistent s hs
  case reverse =>
    simp only [Option.some.injEq] at h
    exact h ▸ handleReverseGallery_textConsistent s hs
  case like i =>
    simp only [Option.some.injEq] at h
    exact h ▸ handleLikeClick_textConsistent i s hs
  case render images =>
    simp only [Option.some.injEq] at h
    simp only [Event.plainItems, List.all_eq_true] at he
    obtain ⟨s2, hren, hs2⟩ := renderImages_textConsistent images s he hs
    rw [hren] at h
    exact h ▸ hs2

/-- A property kept by every event of a given kind holds after every sequence of
events of that kind. -/
theorem run_induction_where (P : State → Prop) (Q : Event → Prop) (src : Source)
    (hstep : ∀ e s s1, Q e → P s → step src e s = some s1 → P s1) :
    ∀ (evs : List Event) (s s1 : State), (∀ e ∈ evs, Q e) → P s →
      run src evs s = some s1 → P s1 := by
  intro evs
  induction evs with
  | nil =>
    intro s s1 _ hs h
    simp only [run, Option.some.injEq] at h
    exact h ▸ hs
  | cons e es ih =>
    intro s s1 hq hs h
    simp only [run, Option.bind_eq_some] at h
    obtain ⟨s2, h2, h3⟩ := h
    exact ih s2 s1 (fun e1 he1 => hq e1 (List.mem_cons_of_mem _ he1))
      (hstep e s s2 (hq e (List.mem_cons_self _ _)) hs h2) h3

/-- With string ids and text fields only, in every state reached from the initial state the cards
have pairwise different data-ids, a string id is known exactly when a card carries
it, every known id is a string and there are as many known ids as cards. -/
theorem text_ids_deduplicated (src : Source) (evs : List Event) (s : State)
    (hev : ∀ e ∈ evs, e.plainItems = true) (h : run src evs initialState = some s) :
    (dataIds s).Nodup ∧ (∀ t : String, Id.str t ∈ s.currentImageIds ↔ t ∈ dataIds s) ∧
    (∀ id ∈ s.currentImageIds, id.isStr = true) ∧
    s.currentImageIds.card = s.gallery.length := by
  have hinit : TextConsistent initialState := by
    simp [TextConsistent, dataIds, initialState]
  obtain ⟨hnd, hids⟩ := run_induction_where TextConsistent (fun e => e.plainItems = true) src
    (step_textConsistent src) evs initialState s hev hinit h
  have hinj : Function.Injective Id.str := fun a b hab => by injection hab
  refine ⟨hnd, ?_, ?_, ?_⟩
  · intro t
    rw [hids]
    simp [hinj.eq_iff]
  · intro id hid
    rw [hids] at hid
    simp only [List.mem_toFinset, List.mem_map] at hid
    obtain ⟨t, -, rfl⟩ := hid
    rfl
  · rw [hids, List.toFinset_card_of_nodup (hnd.map hinj)]
    simp [dataIds]

/-- With string ids and text fields only, every state reached from the initial state satisfies the
invariant of the known-id set. -/
theorem text_ids_keep_invariant (src : Source) (evs : List Event) (s : State)
    (hev : ∀ e ∈ evs, e.plainItems = true) (h : run src evs initialState = some s) :
    Deduplicated s := by
  obtain ⟨hnd, hmem, hstr, hcard⟩ := text_ids_deduplicated src evs s hev h
  refine ⟨hnd, ?_, ?_, hcard⟩
  · intro id hid
    cases id with
    | str t => exact (hmem t).mp hid
    | num n => simpa [Id.isStr] using hstr _ hid
  · intro t ht
    exact ⟨Id.str t, (hmem t).mpr ht, rfl⟩

/-- On an empty list `handleRemoveLast` returns the state it was given; on a list
ending in the card `c` it leaves the cards before `c` in their order, keeps the cursor
and removes the string `c.dataId` from the known ids. -/
theorem handleRemoveLast_spec (s : State) :
    (s.gallery = [] → handleRemoveLast s = s) ∧
    (∀ (cs : List Card) (c : Card), s.gallery = cs ++ [c] →
      (handleRemoveLast s).gallery = cs ∧
      (handleRemoveLast s).currentPage = s.currentPage ∧
      (handleRemoveLast s).currentImageIds = s.currentImageIds.erase (Id.str c.dataId) ∧
      Id.str c.dataId ∉ (handleRemoveLast s).currentImageIds) := by
  constructor
  · intro h
    simp [handleRemoveLast, h]
  · intro cs c h
    have hids : (handleRemoveLast s).currentImageIds
        = s.currentImageIds.erase (Id.str c.dataId) := by
      simp [handleRemoveLast, h, updateGalleryState_frame]
    refine ⟨?_, (handleRemoveLast_frame s).1, hids, ?_⟩
    · simp [handleRemoveLast, h, updateGalleryState_frame]
    · rw [hids]
      simp

/-- C5 (evaluation at the failing input): after the first page of the scenario
(numeric ids 1 to 4) `handleRemoveLast` removes the card with data-id 4 and leaves the
cards 1, 2, 3 in order, but the id 4 of the removed card is still a known id: the set
holds the number 4 and the handler deletes the string read from the data-id. -/
theorem removed_numeric_id_still_known :
    dataIds loadedState = ["1", "2", "3", "4"] ∧
    dataIds (handleRemoveLast loadedState) = ["1", "2", "3"] ∧
    Id.num 4 ∈ (handleRemoveLast loadedState).currentImageIds ∧
    (handleRemoveLast loadedState).currentImageIds = loadedState.currentImageIds := by
  decide

/-- C2 (evaluation at the failing input): a page with the numeric ids 7 and 8 is
loaded and the last card removed. One card (data-id 7) is left while two ids are
known, so the invariant of the known-id set fails; after a second removal and a
second load of the same page no card is shown, both items being dropped as
duplicates. -/
theorem numeric_ids_break_invariant :
    (∃ s, run numericSource [.loadMore, .respond (numericSource 1), .removeLast] initialState
        = some s ∧
      dataIds s = ["7"] ∧ s.currentImageIds = {Id.num 7, Id.num 8} ∧
      s.currentImageIds.card = 2 ∧ s.gallery.length = 1 ∧ ¬ Deduplicated s) ∧
    (run numericSource
        [.loadMore, .respond (numericSource 1), .removeLast, .removeLast,
          .loadMore, .respond (numericSource 2)] initialState).map
        (fun s => (dataIds s, s.currentImageIds.card, s.currentPage))
      = some ([], 2, 3) := by
  refine ⟨⟨_, rfl, by decide, by decide, by decide, by decide, fun h => ?_⟩, by decide⟩
  have hcard := h.2.2.2
  revert hcard
  decide

/-- The same events with the string ids 7 and 8 keep the invariant: an instance of
`text_ids_keep_invariant`. -/
theorem text_ids_keep_invariant_witness :
    (∀ e ∈ [Event.loadMore, .respond (.ok [itemS "7", itemS "8"]), .removeLast],
      e.plainItems = true) ∧
    Deduplicated (handleRemoveLast
      ((fetchImages 2 (fun _ => .ok [itemS "7", itemS "8"]) 1 initialState).getD initialState)) :=
  ⟨by decide,
    text_ids_keep_invariant (fun _ => .ok [itemS "7", itemS "8"])
      [.loadMore, .respond (.ok [itemS "7", itemS "8"]), .removeLast] _ (by decide) rfl⟩

end Gallery
